import Mathlib

/-!
Shallow embedding of the TVB-NEST co-simulation pipeline driver
(`cosim_example_demos/TVB-NEST-demo/old_demo_files/tvb_to_nest.py`) and of the
backend co-simulation loop (`cosim_example_demos/TVB-NEST-demo/backend.py`),
with theorems settling the specification claims about them.

Conventions of the embedding:
- Python integers are `Int` or `Nat`; floating-point simulation quantities are
  modelled as exact rationals `ℚ` (their values are only stored, compared and
  combined by `+ - * / min round` in the embedded code).
- The filesystem marker polling loop is modelled against an abstract history
  `marker : Nat → Bool` (whether the unlock file exists at poll attempt `k`),
  with fuel for termination; each failed check is one `time.sleep(1)`.
- The driver's side effects (constructing a stage object, running it, starting
  and joining threads, removing the unlock marker) are recorded as an ordered
  event list per MPI rank.
- External collaborators (the simulator apps, the transformer apps, the
  stage-run methods from `nest_elephant_tvb`) are parameters/oracles: only the
  control flow of the two files under verification is embedded.
-/

namespace TvbToNest

/-! ### Handshake polling loop (tvb_to_nest.py lines 36-39)

`while not os.path.exists(path + '/nest/spike_generator.txt.unlock'):
     logger.info(...); time.sleep(1)`
followed by `np.loadtxt(path + '/nest/spike_generator.txt')`.

`awaitUnlock marker fuel k` returns `some j` when the loop, whose check number
`k, k+1, ...` queries `marker`, exits at check `j` (so the data file is read
right after check `j` succeeded, and exactly `j - k` one-second sleeps were
performed before that); `none` when the marker never appears within `fuel`
checks (the Python loop would still be blocking). -/

def awaitUnlock (marker : Nat → Bool) : Nat → Nat → Option Nat
  | 0, _ => none
  | fuel + 1, k => if marker k then some k else awaitUnlock marker fuel (k + 1)

theorem awaitUnlock_spec (marker : Nat → Bool) (fuel : Nat) :
    ∀ s j, awaitUnlock marker fuel s = some j →
      s ≤ j ∧ marker j = true ∧ ∀ i, s ≤ i → i < j → marker i = false := by
  induction fuel with
  | zero => intro s j h; simp [awaitUnlock] at h
  | succ n ih =>
    intro s j h
    by_cases hm : marker s
    · simp [awaitUnlock, hm] at h
      subst h
      exact ⟨le_refl _, hm, fun i hsi hij => absurd (lt_of_le_of_lt hsi hij) (lt_irrefl _)⟩
    · simp [awaitUnlock, hm] at h
      obtain ⟨hle, hj, hlt⟩ := ih (s + 1) j h
      refine ⟨le_trans (Nat.le_succ s) hle, hj, fun i hsi hij => ?_⟩
      rcases Nat.eq_or_lt_of_le hsi with heq | hlt2
      · simpa [← heq] using hm
      · exact hlt i hlt2 hij

/-- Claim C4: the handshake waiter reads the data file only after the unlock
marker exists (the check that lets it through observed the marker), every
attempt strictly before that observed its absence (and slept 1 second), and a
waiter that finds the marker at its very first check proceeds with zero
sleeps. -/
theorem awaitUnlock_never_reads_early (marker : Nat → Bool) (fuel : Nat) (j : Nat)
    (h : awaitUnlock marker fuel 0 = some j) :
    marker j = true ∧ (∀ i, i < j → marker i = false) ∧
      (marker 0 = true → j = 0) := by
  obtain ⟨-, hj, hbefore⟩ := awaitUnlock_spec marker fuel 0 j h
  refine ⟨hj, fun i hij => hbefore i (Nat.zero_le i) hij, fun h0 => ?_⟩
  by_contra hne
  have := hbefore 0 (le_refl 0) (Nat.pos_of_ne_zero hne)
  simp [h0] at this

/-- Witness for C4: with a marker that appears at attempt 2, the waiter exits
at attempt 2 having seen the marker absent at attempts 0 and 1. -/
theorem awaitUnlock_never_reads_early_witness :
    decide (2 ≥ 2) = true ∧ (fun k => decide (k ≥ 2)) 2 = true ∧
      (∀ i, i < 2 → (fun k => decide (k ≥ 2)) i = false) ∧
      ((fun k => decide (k ≥ 2)) 0 = true → 2 = 0) := by
  refine ⟨by decide, ?_⟩
  exact awaitUnlock_never_reads_early (fun k => decide (k ≥ 2)) 5 2 (by decide)

/-! ### Handshake table normalization (tvb_to_nest.py lines 39-51)

`np.loadtxt` yields either a 1-D array (single spike-detector row) or a 2-D
array; the driver normalizes: `if len(spike_generator.shape) < 2:
spike_generator = np.expand_dims(spike_generator, 0)`, then takes
`spike_generator[id_transformer][0]` and `len(spike_generator[id_transformer])`
with `id_transformer = 0`. Out-of-range indexing (which raises in Python) is
`none`. -/

inductive LoadedTable where
  | one (row : List Int)
  | two (rows : List (List Int))
deriving DecidableEq

def id_transformer : Nat := 0

def normalizeTable : LoadedTable → List (List Int)
  | .one row => [row]
  | .two rows => rows

def id_first_spike_detector (sg : List (List Int)) : Option Int :=
  (sg.get? id_transformer).bind fun row => row.get? 0

def nb_spike_generator (sg : List (List Int)) : Option Nat :=
  (sg.get? id_transformer).map List.length

/-- Claim C6: a 1-D handshake table is normalized to the single-row 2-D table
`[row]` instead of failing; on it the driver extracts the first element of the
array as `id_first_spike_detector` and the array length as
`nb_spike_generator`, exactly as for the same data written as one 2-D row. -/
theorem oneDimensional_table_normalized (x : Int) (xs : List Int) :
    normalizeTable (.one (x :: xs)) = [x :: xs] ∧
    id_first_spike_detector (normalizeTable (.one (x :: xs))) = some x ∧
    nb_spike_generator (normalizeTable (.one (x :: xs))) = some (x :: xs).length ∧
    normalizeTable (.one (x :: xs)) = normalizeTable (.two [x :: xs]) := by
  refine ⟨rfl, ?_, ?_, rfl⟩ <;>
    simp [normalizeTable, id_first_spike_detector, nb_spike_generator, id_transformer]

/-! ### Command-line argument check (tvb_to_nest.py lines 19-24)

`if len(sys.argv) != 2: print('missing argument'); exit(1)`; only past this
check does the driver read `path + '/parameter.json'` (its first file
access). -/

structure MainStart where
  printed : List String
  exitCode : Option Nat
  fileAccesses : List String
deriving DecidableEq

def mainArgvCheck (argv : List String) : MainStart :=
  if argv.length ≠ 2 then
    { printed := ["missing argument"], exitCode := some 1, fileAccesses := [] }
  else
    { printed := [], exitCode := none,
      fileAccesses := [argv.getD 1 "" ++ "/parameter.json"] }

/-- Claim C7: invoked without its single run-directory argument, the command
prints the usage/error message and exits with status 1 before any file is
accessed (so no parameter file read, no handshake file touched, no transport
opened). -/
theorem missing_argument_exits_early (argv : List String) (h : argv.length ≠ 2) :
    mainArgvCheck argv =
      { printed := ["missing argument"], exitCode := some 1, fileAccesses := [] } := by
  simp [mainArgvCheck, h]

/-- Witness for C7: invoking with only the program name (no run-directory
argument) exits with status 1 before any file access. -/
theorem missing_argument_exits_early_witness :
    ["tvb_to_nest.py"].length ≠ 2 ∧
      mainArgvCheck ["tvb_to_nest.py"] =
        { printed := ["missing argument"], exitCode := some 1, fileAccesses := [] } :=
  ⟨by decide, missing_argument_exits_early ["tvb_to_nest.py"] (by decide)⟩

/-! ### Channel files built for rank 0 (tvb_to_nest.py lines 50-66)

On the MPI rank 0 branch (and equally in thread mode, lines 116-121) the
driver builds `nb_spike_generator` file paths
`os.path.join(path + "/transformation/spike_generator/",
str(id_first_spike_detector + i) + ".txt")` for `i in range(nb_spike_generator)`
and hands them to `send_data_to_Nest.run`; one channel file per path is then
written. -/

def spikeGeneratorFilePaths (path : String) (sg : List (List Int)) :
    Option (List String) :=
  (id_first_spike_detector sg).bind fun idFirst =>
  (nb_spike_generator sg).map fun nb =>
  (List.range nb).map fun i =>
    path ++ "/transformation/spike_generator/" ++ toString (idFirst + (i : Int)) ++ ".txt"

/-- Counterexample for C3: with the handshake table `[[5,2],[7,3]]` the driver
computes `nb_spike_generator = len(table[0]) = 2` and builds 2 channel-file
paths, not 2+3 = 5. -/
theorem spikeGeneratorFilePaths_not_five :
    (spikeGeneratorFilePaths "p" [[5, 2], [7, 3]]).map List.length = some 2 ∧
      ¬ (spikeGeneratorFilePaths "p" [[5, 2], [7, 3]]).map List.length = some 5 := by
  constructor <;> decide

/-- Claim C3 (amended): with the handshake table `[[5,2],[7,3]]`, rank 0 (the
Producer stage) builds exactly `len(row 0) = 2` channel files under
`<path>/transformation/spike_generator/`, named after the consecutive detector
ids `5` and `6` of row 0. -/
theorem spikeGeneratorFilePaths_row0 (path : String) :
    spikeGeneratorFilePaths path [[5, 2], [7, 3]] =
      some [path ++ "/transformation/spike_generator/" ++ "5" ++ ".txt",
            path ++ "/transformation/spike_generator/" ++ "6" ++ ".txt"] ∧
    (spikeGeneratorFilePaths path [[5, 2], [7, 3]]).map List.length = some 2 := by
  have h5 : toString (5 : Int) = "5" := rfl
  have h6 : toString (6 : Int) = "6" := rfl
  constructor <;>
    simp [spikeGeneratorFilePaths, id_first_spike_detector, nb_spike_generator,
      id_transformer, List.range_succ, h5, h6]

/-! ### Driver dispatch on world size and rank (tvb_to_nest.py lines 53-137)

`MPI.COMM_WORLD.Get_size() == 3` selects the MPI-internal-communication
branch (one stage per rank, each constructed with
`communication_intern=MPICommunication, buffer_r_w=[0, 2]`);
`Get_size() == 1` selects the thread branch (all three stages constructed with
`communication_intern=ThreadCommunication`, started and joined as threads);
any other size raises `Exception(' BAD number of MPI rank')`. After the
branch, `if id_transformer == 0 and rank == 1:
os.remove(path + '/nest/spike_generator.txt.unlock')`.

Each rank's behaviour is recorded as an ordered event list; a raised exception
is `Except.error` with the exception message, and then no further event (the
cleanup line is never reached). Stage constructor arguments irrelevant to the
claims (logger names, parameter dicts, numpy buffer initializers, the file
path lists) are omitted from `StageConfig`. -/

inductive TransportKind where
  | mpi
  | thread
deriving DecidableEq

inductive StageKind where
  | producerDataNest
  | consumerTVBData
  | transformationRateSpike
deriving DecidableEq

structure StageConfig where
  kind : StageKind
  communication_intern : TransportKind
  buffer_r_w : Option (List Nat)
  receiver_rank : Option Nat
  sender_rank : Option Nat
deriving DecidableEq

inductive DriverEvent where
  | constructStage (cfg : StageConfig)
  | runStage (kind : StageKind)
  | startThread (kind : StageKind)
  | joinThread (kind : StageKind)
  | removeUnlockMarker
deriving DecidableEq

def producerCfgMPI : StageConfig :=
  { kind := .producerDataNest, communication_intern := .mpi,
    buffer_r_w := some [0, 2], receiver_rank := none, sender_rank := none }

def consumerCfgMPI : StageConfig :=
  { kind := .consumerTVBData, communication_intern := .mpi,
    buffer_r_w := some [0, 2], receiver_rank := some 2, sender_rank := none }

def transformerCfgMPI : StageConfig :=
  { kind := .transformationRateSpike, communication_intern := .mpi,
    buffer_r_w := some [0, 2], receiver_rank := none, sender_rank := some 1 }

def threadCfg (kind : StageKind) : StageConfig :=
  { kind := kind, communication_intern := .thread,
    buffer_r_w := none, receiver_rank := none, sender_rank := none }

def mpiBranch (rank : Nat) : Except String (List DriverEvent) :=
  if rank = 0 then
    .ok [.constructStage producerCfgMPI, .runStage .producerDataNest]
  else if rank = 1 then
    .ok [.constructStage consumerCfgMPI, .runStage .consumerTVBData]
  else if rank = 2 then
    .ok [.constructStage transformerCfgMPI, .runStage .transformationRateSpike]
  else
    .error "too much rank"

def threadBranch : Except String (List DriverEvent) :=
  .ok [.constructStage (threadCfg .consumerTVBData),
       .constructStage (threadCfg .transformationRateSpike),
       .constructStage (threadCfg .producerDataNest),
       .startThread .consumerTVBData,
       .startThread .transformationRateSpike,
       .startThread .producerDataNest,
       .joinThread .transformationRateSpike,
       .joinThread .consumerTVBData,
       .joinThread .producerDataNest]

def cleanupEvents (rank : Nat) : List DriverEvent :=
  if id_transformer = 0 ∧ rank = 1 then [.removeUnlockMarker] else []

def driverEvents (size rank : Nat) : Except String (List DriverEvent) :=
  match (if size = 3 then mpiBranch rank
         else if size = 1 then threadBranch
         else .error " BAD number of MPI rank") with
  | .error e => .error e
  | .ok evs => .ok (evs ++ cleanupEvents rank)

def eventsOf : Except String (List DriverEvent) → List DriverEvent
  | .ok evs => evs
  | .error _ => []

def stagesOf (r : Except String (List DriverEvent)) : List StageConfig :=
  (eventsOf r).filterMap fun e =>
    match e with
    | .constructStage cfg => some cfg
    | _ => none

/-- Claim C2: a world size of exactly 3 selects the MPI (process) transport for
every constructed stage, a size of exactly 1 selects the thread transport for
all three stages, and any other size raises
`Exception(' BAD number of MPI rank')` with no stage (hence no transport)
constructed at all. -/
theorem transport_selection_by_size (size rank : Nat)
    (h3 : size ≠ 3) (h1 : size ≠ 1) :
    driverEvents size rank = .error " BAD number of MPI rank" ∧
    stagesOf (driverEvents size rank) = [] ∧
    (stagesOf (driverEvents 3 0)).map StageConfig.communication_intern = [.mpi] ∧
    (stagesOf (driverEvents 3 1)).map StageConfig.communication_intern = [.mpi] ∧
    (stagesOf (driverEvents 3 2)).map StageConfig.communication_intern = [.mpi] ∧
    (stagesOf (driverEvents 1 0)).map StageConfig.communication_intern =
      [.thread, .thread, .thread] := by
  have herr : driverEvents size rank = .error " BAD number of MPI rank" := by
    simp [driverEvents, h3, h1]
  exact ⟨herr, by simp [stagesOf, eventsOf, herr], by decide, by decide, by decide, by decide⟩

/-- Witness for C2: a world size of 2 raises the fatal configuration error
with no stage constructed, while sizes 3 and 1 select process and thread
transport respectively. -/
theorem transport_selection_by_size_witness :
    (2 ≠ 3) ∧ (2 ≠ 1) ∧
    (driverEvents 2 0 = .error " BAD number of MPI rank" ∧
     stagesOf (driverEvents 2 0) = [] ∧
     (stagesOf (driverEvents 3 0)).map StageConfig.communication_intern = [.mpi] ∧
     (stagesOf (driverEvents 3 1)).map StageConfig.communication_intern = [.mpi] ∧
     (stagesOf (driverEvents 3 2)).map StageConfig.communication_intern = [.mpi] ∧
     (stagesOf (driverEvents 1 0)).map StageConfig.communication_intern =
       [.thread, .thread, .thread]) :=
  ⟨by decide, by decide, transport_selection_by_size 2 0 (by decide) (by decide)⟩

/-- Claim C5: under process transport (world size 3), rank 0 constructs and
runs exactly the `ProducerDataNest` stage, rank 1 exactly the
`ConsumerTVBData` stage (with `receiver_rank=2`), and rank 2 exactly the
`TransformationRateSpike` stage (with `sender_rank=1`); every stage is built
with the shared buffer rank pair `buffer_r_w = [0, 2]`. -/
theorem process_mode_rank_dispatch :
    stagesOf (driverEvents 3 0) = [producerCfgMPI] ∧
    stagesOf (driverEvents 3 1) = [consumerCfgMPI] ∧
    stagesOf (driverEvents 3 2) = [transformerCfgMPI] ∧
    producerCfgMPI.kind = .producerDataNest ∧
    consumerCfgMPI.kind = .consumerTVBData ∧
    consumerCfgMPI.receiver_rank = some 2 ∧
    transformerCfgMPI.kind = .transformationRateSpike ∧
    transformerCfgMPI.sender_rank = some 1 ∧
    producerCfgMPI.buffer_r_w = some [0, 2] ∧
    consumerCfgMPI.buffer_r_w = some [0, 2] ∧
    transformerCfgMPI.buffer_r_w = some [0, 2] := by
  decide

def countRemovals (evs : List DriverEvent) : Nat :=
  evs.countP fun e => e = .removeUnlockMarker

/-- Counterexample for C1: in thread mode (world size 1, the only MPI rank is
0) the driver joins all three execution-unit threads but then, since the
cleanup guard requires `rank == 1`, never removes the handshake unlock
marker — refuting the claim that in both thread mode and process mode the
designated owner removes the marker at teardown. -/
theorem thread_mode_never_removes_marker :
    DriverEvent.joinThread .consumerTVBData ∈ eventsOf (driverEvents 1 0) ∧
    DriverEvent.joinThread .transformationRateSpike ∈ eventsOf (driverEvents 1 0) ∧
    DriverEvent.joinThread .producerDataNest ∈ eventsOf (driverEvents 1 0) ∧
    DriverEvent.removeUnlockMarker ∉ eventsOf (driverEvents 1 0) := by
  decide

/-- Claim C1 (amended): for every world size and rank (rank < size), the
unlock marker is removed exactly once when size = 3 and rank = 1 (the
designated deleter: transformer instance 0 on the ConsumerTVBData rank) and
by nobody otherwise — in particular never in thread mode; when it is removed,
the removal is the last action of rank 1, after its own stage has completed
its run (not synchronized with the completion of ranks 0 and 2). -/
theorem marker_removed_by_designated_rank_only (size rank : Nat)
    (hr : rank < size) :
    countRemovals (eventsOf (driverEvents size rank)) =
      (if size = 3 ∧ rank = 1 then 1 else 0) ∧
    eventsOf (driverEvents 3 1) =
      [.constructStage consumerCfgMPI, .runStage .consumerTVBData,
       .removeUnlockMarker] := by
  refine ⟨?_, by decide⟩
  by_cases h3 : size = 3
  · subst h3
    interval_cases rank <;> decide
  · by_cases h1 : size = 1
    · subst h1
      interval_cases rank
      decide
    · have herr : driverEvents size rank = .error " BAD number of MPI rank" := by
        simp [driverEvents, h3, h1]
      simp [herr, eventsOf, countRemovals, h3]

/-- Witness for C1 (amended): with world size 3, rank 1 removes the marker
exactly once, as its final action after running its own stage. -/
theorem marker_removed_by_designated_rank_only_witness :
    (1 < 3) ∧
    (countRemovals (eventsOf (driverEvents 3 1)) =
       (if 3 = 3 ∧ 1 = 1 then 1 else 0) ∧
     eventsOf (driverEvents 3 1) =
       [.constructStage consumerCfgMPI, .runStage .consumerTVBData,
        .removeUnlockMarker]) :=
  ⟨by decide, marker_removed_by_designated_rank_only 3 1 (by decide)⟩

/-! ### Thread-mode shared-buffer wiring (tvb_to_nest.py lines 89-115)

In the thread branch the driver constructs, in order,
`receive_data_to_TVB` (ConsumerTVBData), `transform_rate_to_spike`
(TransformationRateSpike, passing
`buffer_read=receive_data_to_TVB.communication_internal.buffer_write_data,
status_read=....status_write, lock_read=....lock_write`), and
`send_data_to_Nest` (ProducerDataNest, passing the corresponding three
attributes of `transform_rate_to_spike.communication_internal`).

Python object identity is modelled by allocation ids: every constructed
`ThreadCommunication` owns three fresh ids for its write-side buffer, status
array and lock, and stores the read-side ids it was handed. -/

structure ThreadCommunicationState where
  buffer_write_data : Nat
  status_write : Nat
  lock_write : Nat
  buffer_read : Option Nat
  status_read : Option Nat
  lock_read : Option Nat
deriving DecidableEq

/-- Modelled from the spec: the class
`nest_elephant_tvb.transformation.communication.internal_thread.ThreadCommunication`
is not part of the excerpt; per the spec (§4.2 Thread Transport, §9) each
instance owns a preallocated write-side buffer structure, status flag and
mutual-exclusion lock, and stores the read-side references injected by the
driver. `fresh` is the next free allocation id at construction time. -/
def mkThreadCommunication (fresh : Nat) (readRefs : Option (Nat × Nat × Nat)) :
    ThreadCommunicationState :=
  { buffer_write_data := fresh, status_write := fresh + 1, lock_write := fresh + 2,
    buffer_read := readRefs.map Prod.fst,
    status_read := readRefs.map fun r => r.2.1,
    lock_read := readRefs.map fun r => r.2.2 }

def receive_data_to_TVB : ThreadCommunicationState :=
  mkThreadCommunication 0 none

def transform_rate_to_spike : ThreadCommunicationState :=
  mkThreadCommunication 3
    (some (receive_data_to_TVB.buffer_write_data,
           receive_data_to_TVB.status_write,
           receive_data_to_TVB.lock_write))

def send_data_to_Nest : ThreadCommunicationState :=
  mkThreadCommunication 6
    (some (transform_rate_to_spike.buffer_write_data,
           transform_rate_to_spike.status_write,
           transform_rate_to_spike.lock_write))

/-- Claim C8: in thread mode the three stages form a linear pipeline through
exactly two shared buffers: the transformer reads the very objects the
consumer writes (buffer, status, lock), the producer reads the very objects
the transformer writes, and the consumer's write buffer is a different object
from the transformer's write buffer. -/
theorem thread_mode_buffer_wiring :
    transform_rate_to_spike.buffer_read = some receive_data_to_TVB.buffer_write_data ∧
    transform_rate_to_spike.status_read = some receive_data_to_TVB.status_write ∧
    transform_rate_to_spike.lock_read = some receive_data_to_TVB.lock_write ∧
    send_data_to_Nest.buffer_read = some transform_rate_to_spike.buffer_write_data ∧
    send_data_to_Nest.status_read = some transform_rate_to_spike.status_write ∧
    send_data_to_Nest.lock_read = some transform_rate_to_spike.lock_write ∧
    receive_data_to_TVB.buffer_write_data ≠ transform_rate_to_spike.buffer_write_data := by
  decide

end TvbToNest

namespace Backend

/-! ### One synchronization loop (backend.py lines 18-53)

`run_for_synchronization_time(tvb_app, nest_app, tvb_to_nest_app,
nest_to_tvb_app, tvb_to_trans_cosim_updates, nest_to_trans_cosim_updates)`:
each transformer app is invoked only when its incoming update is not `None`
(otherwise the forwarded update is `None`), then both simulator apps are
invoked unconditionally and the pair of their outputs is returned.

The four apps are parameters; each `run_for_synchronization_time` method is a
pure function of its input, and the trace record counts how often each was
invoked and what inputs the simulators received. -/

structure SyncRunTrace (A B C D : Type) where
  ret : A × B
  tvb_to_nest_calls : Nat
  nest_to_tvb_calls : Nat
  tvb_calls : Nat
  nest_calls : Nat
  tvb_input : Option D
  nest_input : Option C

def run_for_synchronization_time {A B C D : Type}
    (tvb_app : Option D → A) (nest_app : Option C → B)
    (tvb_to_nest_app : A → C) (nest_to_tvb_app : B → D)
    (tvb_to_trans_cosim_updates : Option A)
    (nest_to_trans_cosim_updates : Option B) : SyncRunTrace A B C D :=
  let step1 : Option C × Nat :=
    match tvb_to_trans_cosim_updates with
    | some u => (some (tvb_to_nest_app u), 1)
    | none => (none, 0)
  let step2 : Option D × Nat :=
    match nest_to_trans_cosim_updates with
    | some u => (some (nest_to_tvb_app u), 1)
    | none => (none, 0)
  let tvbOut := tvb_app step2.1
  let nestOut := nest_app step1.1
  { ret := (tvbOut, nestOut),
    tvb_to_nest_calls := step1.2, nest_to_tvb_calls := step2.2,
    tvb_calls := 1, nest_calls := 1,
    tvb_input := step2.1, nest_input := step1.1 }

/-- Claim C9: in `run_for_synchronization_time`, a `None` incoming
TVB-to-transformer update means the TVB-to-NEST transformer app is never
invoked and the NEST simulator receives `None`; symmetrically for the
NEST-to-transformer update and the TVB simulator; in every case each
simulator app is invoked exactly once and the function returns the pair
(TVB output, NEST output). -/
theorem run_for_synchronization_time_spec {A B C D : Type}
    (tvb_app : Option D → A) (nest_app : Option C → B)
    (tvb_to_nest_app : A → C) (nest_to_tvb_app : B → D)
    (u : Option A) (v : Option B) :
    (u = none →
      (run_for_synchronization_time tvb_app nest_app tvb_to_nest_app
        nest_to_tvb_app u v).tvb_to_nest_calls = 0 ∧
      (run_for_synchronization_time tvb_app nest_app tvb_to_nest_app
        nest_to_tvb_app u v).nest_input = none) ∧
    (v = none →
      (run_for_synchronization_time tvb_app nest_app tvb_to_nest_app
        nest_to_tvb_app u v).nest_to_tvb_calls = 0 ∧
      (run_for_synchronization_time tvb_app nest_app tvb_to_nest_app
        nest_to_tvb_app u v).tvb_input = none) ∧
    (run_for_synchronization_time tvb_app nest_app tvb_to_nest_app
      nest_to_tvb_app u v).tvb_calls = 1 ∧
    (run_for_synchronization_time tvb_app nest_app tvb_to_nest_app
      nest_to_tvb_app u v).nest_calls = 1 ∧
    (run_for_synchronization_time tvb_app nest_app tvb_to_nest_app
      nest_to_tvb_app u v).ret =
      (tvb_app (run_for_synchronization_time tvb_app nest_app tvb_to_nest_app
        nest_to_tvb_app u v).tvb_input,
       nest_app (run_for_synchronization_time tvb_app nest_app tvb_to_nest_app
        nest_to_tvb_app u v).nest_input) := by
  cases u <;> cases v <;>
    simp [run_for_synchronization_time]

/-- Witness for C9: with both incoming updates `None` and concrete apps over
`Nat`, neither transformer app is invoked, both simulators receive `None` and
are invoked exactly once, and the returned pair is the simulator outputs. -/
theorem run_for_synchronization_time_spec_witness :
    ((none : Option Nat) = none →
      (run_for_synchronization_time (fun _ => (7 : Nat)) (fun _ => (8 : Nat))
        (fun a => a + 1) (fun b => b + 2) none none).tvb_to_nest_calls = 0 ∧
      (run_for_synchronization_time (fun _ => (7 : Nat)) (fun _ => (8 : Nat))
        (fun a => a + 1) (fun b => b + 2) none none).nest_input = none) ∧
    ((none : Option Nat) = none →
      (run_for_synchronization_time (fun _ => (7 : Nat)) (fun _ => (8 : Nat))
        (fun a => a + 1) (fun b => b + 2) none none).nest_to_tvb_calls = 0 ∧
      (run_for_synchronization_time (fun _ => (7 : Nat)) (fun _ => (8 : Nat))
        (fun a => a + 1) (fun b => b + 2) none none).tvb_input = none) ∧
    (run_for_synchronization_time (fun _ => (7 : Nat)) (fun _ => (8 : Nat))
      (fun a => a + 1) (fun b => b + 2) none none).tvb_calls = 1 ∧
    (run_for_synchronization_time (fun _ => (7 : Nat)) (fun _ => (8 : Nat))
      (fun a => a + 1) (fun b => b + 2) none none).nest_calls = 1 ∧
    (run_for_synchronization_time (fun _ => (7 : Nat)) (fun _ => (8 : Nat))
      (fun a => a + 1) (fun b => b + 2) none none).ret =
      ((fun _ => (7 : Nat))
        (run_for_synchronization_time (fun _ => (7 : Nat)) (fun _ => (8 : Nat))
          (fun a => a + 1) (fun b => b + 2) none none).tvb_input,
       (fun _ => (8 : Nat))
        (run_for_synchronization_time (fun _ => (7 : Nat)) (fun _ => (8 : Nat))
          (fun a => a + 1) (fun b => b + 2) none none).nest_input) :=
  run_for_synchronization_time_spec (fun _ => (7 : Nat)) (fun _ => (8 : Nat))
    (fun a => a + 1) (fun b => b + 2) none none

/-! ### Whole-cosimulation loop (backend.py lines 56-109)

`run_cosimulation` saves `simulation_length`, `synchronization_time` and
`synchronization_n_step` of the TVB cosimulator at entry, optionally extends
the length by one synchronization time, computes
`remaining_steps = int(np.round(simulation_length / dt))`, and loops while
`remaining_steps > 0`: each iteration caps `synchronization_n_step` at the
remaining steps (`np.minimum`), writes the matching `synchronization_time`
into the TVB cosimulator and the NEST app, delegates one interval to
`run_for_synchronization_time`, and advances by the cosimulator-reported
`n_tvb_steps_ran_since_last_synch`. On exit it sets
`simulation_length = simulated_steps * dt` and writes the saved
`synchronization_n_step` and `synchronization_time` back into the TVB
cosimulator, and the saved TVB `synchronization_time` into the NEST app.

Floating-point times are modelled as exact rationals; `np.round` is
round-half-to-even. The external work done by the apps inside
`run_for_synchronization_time` is an oracle: `oracle k` is the value the TVB
app leaves in `n_tvb_steps_ran_since_last_synch` during loop iteration `k`
(the cosim update payloads do not influence any of the mutated fields and are
elided). `fuel` bounds the number of iterations; a non-terminating run is
`none`. The NEST app is represented by its only field read or written here,
`nest_app.synchronization_time`. -/

def npRound (q : ℚ) : Int :=
  if q - ⌊q⌋ < 1 / 2 then ⌊q⌋
  else if 1 / 2 < q - ⌊q⌋ then ⌊q⌋ + 1
  else if ⌊q⌋ % 2 = 0 then ⌊q⌋ else ⌊q⌋ + 1

structure Cosimulator where
  simulation_length : ℚ
  synchronization_time : ℚ
  synchronization_n_step : Int
  dt : ℚ
  n_tvb_steps_ran_since_last_synch : Int
deriving DecidableEq

def run_cosimulation_loop (oracle : Nat → Int) (sync_n_step0 : Int) :
    Nat → Nat → Int → Int → Cosimulator → ℚ → Option (Int × Cosimulator × ℚ)
  | 0, _, remaining, simulated, cs, nest_sync =>
      if 0 < remaining then none else some (simulated, cs, nest_sync)
  | fuel + 1, k, remaining, simulated, cs, nest_sync =>
      if 0 < remaining then
        run_cosimulation_loop oracle sync_n_step0 fuel (k + 1)
          (remaining - oracle k) (simulated + oracle k)
          { cs with synchronization_n_step := min remaining sync_n_step0,
                    synchronization_time :=
                      cs.dt * ((min remaining sync_n_step0 : Int) : ℚ),
                    n_tvb_steps_ran_since_last_synch := oracle k }
          (cs.dt * ((min remaining sync_n_step0 : Int) : ℚ))
      else some (simulated, cs, nest_sync)

def run_cosimulation (oracle : Nat → Int) (advance : Bool) (fuel : Nat)
    (cs : Cosimulator) (nest_sync : ℚ) : Option (Int × Cosimulator × ℚ) :=
  match run_cosimulation_loop oracle cs.synchronization_n_step fuel 0
      (npRound ((if advance then cs.simulation_length + cs.synchronization_time
                 else cs.simulation_length) / cs.dt)) 0 cs nest_sync with
  | none => none
  | some (simulated, cs2, _) =>
      some (simulated,
        { cs2 with
            simulation_length := (simulated : ℚ) * cs.dt,
            synchronization_n_step := cs.synchronization_n_step,
            synchronization_time := cs.synchronization_time },
        cs.synchronization_time)

/-- Counterexample for C10: a terminating run entered with
`nest_app.synchronization_time = 9` while the TVB cosimulator's
`synchronization_time` is `7` exits with `nest_app.synchronization_time = 7`:
the NEST app's field is not restored to the value it had on entry (it is
overwritten with the TVB cosimulator's entry value). -/
theorem run_cosimulation_nest_sync_not_restored :
    (run_cosimulation (fun _ => 1) false 3
        { simulation_length := 2, synchronization_time := 7,
          synchronization_n_step := 5, dt := 1,
          n_tvb_steps_ran_since_last_synch := 0 } 9).map
      (fun r => r.2.2) = some 7 ∧ (7 : ℚ) ≠ 9 := by
  constructor
  · norm_num [run_cosimulation, run_cosimulation_loop, npRound]
  · norm_num

/-- Claim C10 (amended): on every terminating `run_cosimulation`, the TVB
cosimulator's `synchronization_n_step` and `synchronization_time` are restored
to exactly their entry (configured) values even though the loop body
temporarily overwrites them with the possibly smaller remaining-step values;
the NEST app's `synchronization_time` is set to the TVB cosimulator's entry
`synchronization_time` (which is its own entry value only when the two agreed
on entry); and `simulation_length` is left updated to
`simulated_steps * dt`. -/
theorem run_cosimulation_restores_sync (oracle : Nat → Int) (advance : Bool)
    (fuel : Nat) (cs : Cosimulator) (nest_sync : ℚ)
    (simulated : Int) (cs2 : Cosimulator) (nest_sync2 : ℚ)
    (h : run_cosimulation oracle advance fuel cs nest_sync =
      some (simulated, cs2, nest_sync2)) :
    cs2.synchronization_n_step = cs.synchronization_n_step ∧
    cs2.synchronization_time = cs.synchronization_time ∧
    nest_sync2 = cs.synchronization_time ∧
    cs2.simulation_length = (simulated : ℚ) * cs.dt := by
  unfold run_cosimulation at h
  split at h
  · exact absurd h (by simp)
  · rename_i simulated0 cs0 nest0 heq
    simp only [Option.some.injEq, Prod.mk.injEq] at h
    obtain ⟨hs, hc, hn⟩ := h
    subst hs
    subst hc
    subst hn
    simp

/-- Witness for C10 (amended): on the concrete terminating run of the
counterexample input, the TVB cosimulator's two synchronization fields are
restored, the NEST app gets the TVB entry synchronization time, and
`simulation_length` becomes `2 * dt`. -/
theorem run_cosimulation_restores_sync_witness :
    (Cosimulator.synchronization_n_step
        { simulation_length := 2, synchronization_time := 7,
          synchronization_n_step := 5, dt := 1,
          n_tvb_steps_ran_since_last_synch := 1 } =
      Cosimulator.synchronization_n_step
        { simulation_length := 2, synchronization_time := 7,
          synchronization_n_step := 5, dt := 1,
          n_tvb_steps_ran_since_last_synch := 0 }) ∧
    (Cosimulator.synchronization_time
        { simulation_length := 2, synchronization_time := 7,
          synchronization_n_step := 5, dt := 1,
          n_tvb_steps_ran_since_last_synch := 1 } =
      Cosimulator.synchronization_time
        { simulation_length := 2, synchronization_time := 7,
          synchronization_n_step := 5, dt := 1,
          n_tvb_steps_ran_since_last_synch := 0 }) ∧
    ((7 : ℚ) =
      Cosimulator.synchronization_time
        { simulation_length := 2, synchronization_time := 7,
          synchronization_n_step := 5, dt := 1,
          n_tvb_steps_ran_since_last_synch := 0 }) ∧
    (Cosimulator.simulation_length
        { simulation_length := 2, synchronization_time := 7,
          synchronization_n_step := 5, dt := 1,
          n_tvb_steps_ran_since_last_synch := 1 } =
      ((2 : Int) : ℚ) *
        Cosimulator.dt
          { simulation_length := 2, synchronization_time := 7,
            synchronization_n_step := 5, dt := 1,
            n_tvb_steps_ran_since_last_synch := 0 }) :=
  run_cosimulation_restores_sync (fun _ => 1) false 3
    { simulation_length := 2, synchronization_time := 7,
      synchronization_n_step := 5, dt := 1,
      n_tvb_steps_ran_since_last_synch := 0 } 9 2
    { simulation_length := 2, synchronization_time := 7,
      synchronization_n_step := 5, dt := 1,
      n_tvb_steps_ran_since_last_synch := 1 } 7
    (by norm_num [run_cosimulation, run_cosimulation_loop, npRound])

end Backend
